import Mathlib

/-!
# Verification of the ClickUp-Orchestrator frontend contracts

A shallow embedding of the dashboard's client-side logic (WebSocket client
wrappers, terminal message handler, UI-refinement chat queue, API client,
settings store, kanban delete controls) together with the backend behaviour
the spec requires of the process supervisor and stream gateway (the backend
implementation is not part of the visible source, so those pieces are
modelled from the spec).

Sources embedded:
* `src/frontend/src/lib/components/terminal/Terminal.svelte` (terminal
  message handler, UI-refinements page chat queue, task page delete button)
* `src/unnamed/part_005` (`TerminalWebSocket`)
* `src/unnamed/part_001` (`UIRefinementsWebSocket`)
* `src/unnamed/part_006` (settings store)
* `src/unnamed/part_007` (`TaskCard` delete control)
* `src/frontend/src/lib/api/client.ts` (`handleResponse`, `ApiError`)
-/

namespace Orchestrator

/-! ## JavaScript `String.prototype.includes`

`line.includes(pat)` is substring containment.  We model strings by their
character lists and decide containment by scanning every suffix. -/

/-- `leadsWith pat s` is true when `pat` is an initial segment of `s`. -/
def leadsWith : List Char → List Char → Bool
  | [], _ => true
  | _ :: _, [] => false
  | a :: as, b :: bs => a == b && leadsWith as bs

/-- `occursWithin pat s` is true when `pat` occurs contiguously inside `s`. -/
def occursWithin (pat : List Char) : List Char → Bool
  | [] => leadsWith pat []
  | c :: rest => leadsWith pat (c :: rest) || occursWithin pat rest

/-- JavaScript `s.includes(pat)`. -/
def jsIncludes (s pat : String) : Bool :=
  occursWithin pat.data s.data

theorem leadsWith_append (pat rest : List Char) :
    leadsWith pat (pat ++ rest) = true := by
  induction pat with
  | nil => rfl
  | cons a as ih => simp [leadsWith, ih]

theorem occursWithin_append (pat rest : List Char) :
    occursWithin pat (pat ++ rest) = true := by
  cases h : pat ++ rest with
  | nil => simp [occursWithin, ← h, leadsWith_append]
  | cons c cs => simp [occursWithin, ← h, leadsWith_append]

/-- A string includes each of its initial segments. -/
theorem jsIncludes_of_append (pat rest : String) :
    jsIncludes (pat ++ rest) pat = true := by
  unfold jsIncludes
  rw [String.data_append]
  exact occursWithin_append pat.data rest.data

/-! ## Terminal WebSocket message protocol

From `src/unnamed/part_005`: messages delivered to a task terminal client. -/

/-- Messages of the per-task terminal WebSocket (`WsMessage` in
`src/unnamed/part_005`): `output` carries a line and its stream tag,
`connected` carries the task id and the current running state, `error`
carries a message. -/
inductive WsMessage where
  | output (line : String) (is_stderr : Bool)
  | connected (task_id : Nat) (is_running : Bool)
  | error (message : String)
  deriving DecidableEq

/-- The local state of the `Terminal.svelte` component that the message
handler mutates: the `connected` and `isRunning` indicators. -/
structure TermState where
  connected : Bool
  isRunning : Bool
  deriving DecidableEq

/-- `handleMessage` from `Terminal.svelte` (lines 83-109), restricted to its
effect on the component's `connected`/`isRunning` state (terminal writes are
pure presentation): a `connected` message sets `connected := true` and copies
`is_running`; an `output` line containing `"Process exited with code"` sets
`isRunning := false`, any other output line sets `isRunning := true` when it
was `false`; `error` messages leave the state alone. -/
def handleMessage (st : TermState) (msg : WsMessage) : TermState :=
  match msg with
  | .connected _ r => { st with connected := true, isRunning := r }
  | .output line _ =>
      if jsIncludes line "Process exited with code" then
        { st with isRunning := false }
      else if !st.isRunning then
        { st with isRunning := true }
      else st
  | .error _ => st

/-! ## Process supervisor (modelled from the spec)

The backend is not part of the visible source; its contract is given by
spec sections 4.1 and 4.2. -/

/-- Observable events of the process supervisor for one process, in emission
order: output lines (with stream tag) and the clearing of the process
handle. -/
inductive SupEvent where
  | outLine (line : String) (is_stderr : Bool)
  | handleCleared
  deriving DecidableEq

/-- Modelled from the spec: the synthetic final output line the Process
Supervisor emits when a process exits — a line containing the exit code,
produced so that clients matching on `"Process exited with code"` observe
the exit (spec section 4.1). -/
def supExitLine (code : Int) : String :=
  "Process exited with code" ++ (" " ++ toString code)

/-- Modelled from the spec: the event trace of one supervised process run
(spec section 4.1) — every stdout/stderr line of the process is pushed to
the output stream in order; on exit the supervisor emits the synthetic
exit line on the output stream and then clears the handle. `procLines`
are the process's own output lines paired with their stderr tags. -/
def superviseRun (procLines : List (String × Bool)) (code : Int) :
    List SupEvent :=
  procLines.map (fun p => SupEvent.outLine p.1 p.2) ++
    [SupEvent.outLine (supExitLine code) false, SupEvent.handleCleared]

/-- An event is an output line that the terminal's exit pattern matches. -/
def isExitOutput : SupEvent → Bool
  | .outLine line _ => jsIncludes line "Process exited with code"
  | .handleCleared => false

/-- The supervisor's synthetic exit line matches the pattern the terminal
client scans for. -/
theorem jsIncludes_supExitLine (code : Int) :
    jsIncludes (supExitLine code) "Process exited with code" = true :=
  jsIncludes_of_append "Process exited with code" (" " ++ toString code)

/-- C1: For every process, exactly one output line containing
`"Process exited with code"` is emitted on the output stream before the
handle is cleared (supervisor side, assuming the process's own lines do not
contain the pattern), and the task terminal client sets its running
indicator to false on receiving an output line containing that substring,
while any other output line received with the indicator false sets it back
to true. -/
theorem exit_line_unique_and_flips_running
    (procLines : List (String × Bool)) (code : Int)
    (st : TermState) (line : String) (ie : Bool)
    (hp : ∀ p ∈ procLines, jsIncludes p.1 "Process exited with code" = false) :
    ((superviseRun procLines code).countP isExitOutput = 1) ∧
    (∃ l₁, superviseRun procLines code
        = l₁ ++ [SupEvent.outLine (supExitLine code) false,
                 SupEvent.handleCleared]
        ∧ l₁.countP isExitOutput = 0 ∧ SupEvent.handleCleared ∉ l₁) ∧
    (jsIncludes line "Process exited with code" = true →
      (handleMessage st (.output line ie)).isRunning = false) ∧
    (jsIncludes line "Process exited with code" = false →
      st.isRunning = false →
      (handleMessage st (.output line ie)).isRunning = true) := by
  have hmap0 :
      (procLines.map (fun p => SupEvent.outLine p.1 p.2)).countP isExitOutput
        = 0 := by
    rw [List.countP_eq_zero]
    intro e he
    rcases List.mem_map.mp he with ⟨p, hpmem, rfl⟩
    simp [isExitOutput, hp p hpmem]
  refine ⟨?_, ⟨procLines.map (fun p => SupEvent.outLine p.1 p.2), by rfl,
      hmap0, ?_⟩, ?_, ?_⟩
  · unfold superviseRun
    rw [List.countP_append, hmap0]
    simp [List.countP_cons, isExitOutput, jsIncludes_supExitLine]
  · intro hmem
    rcases List.mem_map.mp hmem with ⟨p, _, hpe⟩
    exact SupEvent.noConfusion hpe
  · intro hinc
    simp [handleMessage, hinc]
  · intro hninc hrun
    simp [handleMessage, hninc, hrun]

/-- Witness for `exit_line_unique_and_flips_running` at a concrete run: one
ordinary output line, exit code 0, and the two client transitions evaluated
on concrete lines. -/
theorem exit_line_unique_and_flips_running_witness :
    (superviseRun [("hello", false)] 0).countP isExitOutput = 1 ∧
    (handleMessage ⟨true, true⟩
        (WsMessage.output (supExitLine 0) false)).isRunning = false ∧
    (handleMessage ⟨true, false⟩
        (WsMessage.output "hello" false)).isRunning = true := by
  refine ⟨?_, ?_, ?_⟩
  · exact (exit_line_unique_and_flips_running [("hello", false)] 0
      ⟨true, true⟩ "hello" false (by decide)).1
  · exact (exit_line_unique_and_flips_running [("hello", false)] 0
      ⟨true, true⟩ (supExitLine 0) false (by decide)).2.2.1
      (jsIncludes_supExitLine 0)
  · exact (exit_line_unique_and_flips_running [("hello", false)] 0
      ⟨true, false⟩ "hello" false (by decide)).2.2.2 (by decide) rfl

/-! ## Stream gateway connect contract (C2) -/

/-- Modelled from the spec: the messages the Stream Gateway delivers to a
freshly connected task-terminal client (spec section 4.2) — immediately a
`connected` message carrying the task id and the current `is_running` state
derived from the Process Supervisor, followed by the buffered/live output
lines. The gateway implementation is not part of the visible source. -/
def gatewayConnectMsgs (task_id : Nat) (running : Bool)
    (buffered : List (String × Bool)) : List WsMessage :=
  WsMessage.connected task_id running ::
    buffered.map (fun p => WsMessage.output p.1 p.2)

/-- C2: the first message delivered to a task-terminal client is
`{type:"connected", task_id, is_running}` carrying the current running
state, and the terminal client, on receiving it, sets its connected
indicator to true and its running indicator to the carried value. -/
theorem first_message_connected
    (task_id : Nat) (running : Bool) (buffered : List (String × Bool))
    (st : TermState) :
    (gatewayConnectMsgs task_id running buffered).head?
        = some (WsMessage.connected task_id running) ∧
    (handleMessage st (.connected task_id running)).connected = true ∧
    (handleMessage st (.connected task_id running)).isRunning = running := by
  refine ⟨rfl, ?_, ?_⟩ <;> simp [handleMessage]

/-! ## Task status and delete controls (C3) -/

/-- The task status values used across the frontend
(`queued|in_progress|stopped|completed|failed`). -/
inductive TaskStatus where
  | queued
  | in_progress
  | stopped
  | completed
  | failed
  deriving DecidableEq

/-- The kanban `TaskCard` delete-control condition (`src/unnamed/part_007`):
`onDelete && (task.status === 'stopped' || task.status === 'failed' ||
task.status === 'completed')`.  `onDelete` is whether a delete callback was
passed to the card. -/
def taskCardShowsDelete (onDelete : Bool) (status : TaskStatus) : Bool :=
  onDelete && (status == .stopped || status == .failed ||
    status == .completed)

/-- The task page's Delete-button condition (`Terminal.svelte` source,
task page, lines 850-857): `task.status === 'stopped' || task.status ===
'failed' || task.status === 'completed'`. -/
def taskPageShowsDelete (status : TaskStatus) : Bool :=
  status == .stopped || status == .failed || status == .completed

/-- Modelled from the spec: the backend's delete guard (spec section 4.3,
"delete is only permitted from stopped|failed|completed") — a delete
request is accepted exactly for those three statuses and rejected
otherwise. The backend implementation is not part of the visible source. -/
def deleteAllowed (status : TaskStatus) : Bool :=
  status == .stopped || status == .failed || status == .completed

/-- C3: the UI renders its Delete control (card and task page) exactly for
the statuses `stopped`, `failed`, `completed`, and a delete of a task in
`in_progress` is rejected by the backend guard. -/
theorem delete_only_from_terminal_status (status : TaskStatus) :
    (taskCardShowsDelete true status = true ↔
      (status = .stopped ∨ status = .failed ∨ status = .completed)) ∧
    (taskPageShowsDelete status = taskCardShowsDelete true status) ∧
    (deleteAllowed status = taskPageShowsDelete status) ∧
    deleteAllowed .in_progress = false := by
  cases status <;> simp [taskCardShowsDelete, taskPageShowsDelete,
    deleteAllowed]

/-- Witness for `delete_only_from_terminal_status` at the statuses
`stopped` and `in_progress`. -/
theorem delete_only_from_terminal_status_witness :
    taskCardShowsDelete true TaskStatus.stopped = true ∧
    deleteAllowed TaskStatus.in_progress = false :=
  ⟨(delete_only_from_terminal_status TaskStatus.stopped).1.mpr
      (Or.inl rfl),
    (delete_only_from_terminal_status TaskStatus.stopped).2.2.2⟩

/-! ## WebSocket client wrappers (C4, C6, C8, C9)

`TerminalWebSocket` (`src/unnamed/part_005`) and `UIRefinementsWebSocket`
(`src/unnamed/part_001`) share line-for-line identical connection
management; only the session variant adds `spawnAgent`.  We embed each
class in its own namespace over a common state record. -/

/-- The browser `WebSocket.readyState` constants. -/
inductive ReadyState where
  | CONNECTING
  | OPEN
  | CLOSING
  | CLOSED
  deriving DecidableEq

/-- The mutable fields of a client wrapper: the current socket (`null` or
its ready state), the reconnection counters, and a history count of sockets
created by `new WebSocket(...)` (to express "no second socket is
created"). -/
structure WsClient where
  ws : Option ReadyState
  reconnectAttempts : Nat
  maxReconnectAttempts : Nat
  socketsCreated : Nat
  deriving DecidableEq

/-- The JSON frames a client wrapper can send on its socket. -/
inductive OutFrame where
  | input (data : String)
  | kill
  | spawn (prompt : String) (agent : String) (worktree_path : String)
  deriving DecidableEq

/-- The delay passed to `setTimeout` for the `n`-th reconnection attempt:
`1000 * this.reconnectAttempts` evaluated after the increment, i.e.
`1000 * n` milliseconds. -/
def reconnectDelay (n : Nat) : Nat := 1000 * n

namespace TerminalWS

/-- Field initialisers of `TerminalWebSocket`: no socket,
`reconnectAttempts = 0`, `maxReconnectAttempts = 5`. -/
def newClient : WsClient :=
  { ws := none, reconnectAttempts := 0, maxReconnectAttempts := 5,
    socketsCreated := 0 }

/-- `TerminalWebSocket.connect`: early-return when the socket is already
`OPEN`, otherwise create a new socket (which starts `CONNECTING`). -/
def connect (c : WsClient) : WsClient :=
  if c.ws == some .OPEN then c
  else { c with ws := some .CONNECTING,
                socketsCreated := c.socketsCreated + 1 }

/-- The `onopen` handler: the socket is now `OPEN` and
`reconnectAttempts` is reset to 0. -/
def handleOpen (c : WsClient) : WsClient :=
  { c with ws := some .OPEN, reconnectAttempts := 0 }

/-- The `onclose` handler: the socket is `CLOSED`; when
`reconnectAttempts < maxReconnectAttempts` the counter is incremented and a
reconnect is scheduled after `1000 * reconnectAttempts` ms (the returned
`Option Nat` is the scheduled delay, `none` when no reconnect is
scheduled). -/
def handleClose (c : WsClient) : WsClient × Option Nat :=
  let c1 := { c with ws := some ReadyState.CLOSED }
  if c1.reconnectAttempts < c1.maxReconnectAttempts then
    let c2 := { c1 with reconnectAttempts := c1.reconnectAttempts + 1 }
    (c2, some (1000 * c2.reconnectAttempts))
  else (c1, none)

/-- `TerminalWebSocket.sendInput`: sends one `input` frame when the socket
is `OPEN`, otherwise sends nothing. Returns the frames sent. -/
def sendInput (c : WsClient) (data : String) : List OutFrame :=
  if c.ws == some .OPEN then [.input data] else []

/-- `TerminalWebSocket.sendKill`: sends one `kill` frame when the socket is
`OPEN`, otherwise sends nothing. -/
def sendKill (c : WsClient) : List OutFrame :=
  if c.ws == some .OPEN then [.kill] else []

/-- `TerminalWebSocket.disconnect`: sets `maxReconnectAttempts := 0` (to
prevent reconnection), closes the socket and nulls it. -/
def disconnect (c : WsClient) : WsClient :=
  { c with maxReconnectAttempts := 0, ws := none }

end TerminalWS

namespace SessionWS

/-- Field initialisers of `UIRefinementsWebSocket` (identical to the
terminal variant). -/
def newClient : WsClient :=
  { ws := none, reconnectAttempts := 0, maxReconnectAttempts := 5,
    socketsCreated := 0 }

/-- `UIRefinementsWebSocket.connect` (identical logic to the terminal
variant). -/
def connect (c : WsClient) : WsClient :=
  if c.ws == some .OPEN then c
  else { c with ws := some .CONNECTING,
                socketsCreated := c.socketsCreated + 1 }

/-- The `onopen` handler of `UIRefinementsWebSocket`. -/
def handleOpen (c : WsClient) : WsClient :=
  { c with ws := some .OPEN, reconnectAttempts := 0 }

/-- The `onclose` handler of `UIRefinementsWebSocket` (identical logic to
the terminal variant). -/
def handleClose (c : WsClient) : WsClient × Option Nat :=
  let c1 := { c with ws := some ReadyState.CLOSED }
  if c1.reconnectAttempts < c1.maxReconnectAttempts then
    let c2 := { c1 with reconnectAttempts := c1.reconnectAttempts + 1 }
    (c2, some (1000 * c2.reconnectAttempts))
  else (c1, none)

/-- `UIRefinementsWebSocket.spawnAgent`: when the socket is `OPEN`, sends
exactly one `{type:"spawn", prompt, agent, worktree_path}` frame with the
argument values; otherwise sends nothing. -/
def spawnAgent (c : WsClient) (prompt agent worktreePath : String) :
    List OutFrame :=
  if c.ws == some .OPEN then [.spawn prompt agent worktreePath] else []

/-- `UIRefinementsWebSocket.sendInput`. -/
def sendInput (c : WsClient) (data : String) : List OutFrame :=
  if c.ws == some .OPEN then [.input data] else []

/-- `UIRefinementsWebSocket.sendKill`. -/
def sendKill (c : WsClient) : List OutFrame :=
  if c.ws == some .OPEN then [.kill] else []

/-- `UIRefinementsWebSocket.disconnect`. -/
def disconnect (c : WsClient) : WsClient :=
  { c with maxReconnectAttempts := 0, ws := none }

end SessionWS

/-! ## Reconnection backoff (C4) -/

/-- The claim's asserted shape of the reconnect delay: an exponential
function of the attempt number, i.e. `d (n+1) = base * ratio ^ n` for some
ratio greater than 1. -/
def ExponentialBackoff (d : Nat → Nat) : Prop :=
  ∃ base ratio, 1 < ratio ∧ ∀ n, d (n + 1) = base * ratio ^ n

/-- C4 counterexample: the reconnect delay actually used by both WebSocket
clients (`1000 * attempt`) is not an exponential function of the attempt
number — the delays for attempts 1, 2, 3 are 1000, 2000, 3000 ms. -/
theorem reconnectDelay_not_exponential :
    ¬ ExponentialBackoff reconnectDelay := by
  rintro ⟨b, r, hr, h⟩
  have h0 := h 0
  have h1 := h 1
  have h2 := h 2
  simp only [reconnectDelay, pow_zero, pow_one, mul_one] at h0 h1 h2
  -- `h0 : 1000 = b`, `h1 : 2000 = b * r`, `h2 : 3000 = b * r ^ 2`
  subst h0
  have hr2 : r = 2 := by omega
  subst hr2
  norm_num at h2

/-- C4 (amended): for both WebSocket client classes, after an unexpected
close the client schedules a reconnect whose delay is linear in the
attempt number (`1000 * attempt` ms); no reconnect is scheduled once the
attempt counter reaches `maxReconnectAttempts` (5 on a fresh client, so
attempts are capped at 5); the `onopen` handler resets the counter to 0;
and `disconnect()` zeroes `maxReconnectAttempts`, after which the close
handler never schedules a reconnect. -/
theorem reconnect_linear_backoff_capped (c : WsClient) :
    (c.reconnectAttempts < c.maxReconnectAttempts →
      TerminalWS.handleClose c
          = ({ c with ws := some ReadyState.CLOSED,
                      reconnectAttempts := c.reconnectAttempts + 1 },
             some (reconnectDelay (c.reconnectAttempts + 1))) ∧
      SessionWS.handleClose c
          = ({ c with ws := some ReadyState.CLOSED,
                      reconnectAttempts := c.reconnectAttempts + 1 },
             some (reconnectDelay (c.reconnectAttempts + 1)))) ∧
    (¬ c.reconnectAttempts < c.maxReconnectAttempts →
      (TerminalWS.handleClose c).2 = none ∧
      (SessionWS.handleClose c).2 = none) ∧
    (TerminalWS.newClient.maxReconnectAttempts = 5 ∧
      SessionWS.newClient.maxReconnectAttempts = 5) ∧
    (c.reconnectAttempts ≤ 5 → c.maxReconnectAttempts ≤ 5 →
      (TerminalWS.handleClose c).1.reconnectAttempts ≤ 5 ∧
      (SessionWS.handleClose c).1.reconnectAttempts ≤ 5) ∧
    ((TerminalWS.handleOpen c).reconnectAttempts = 0 ∧
      (SessionWS.handleOpen c).reconnectAttempts = 0) ∧
    ((TerminalWS.disconnect c).maxReconnectAttempts = 0 ∧
      (SessionWS.disconnect c).maxReconnectAttempts = 0) ∧
    (c.maxReconnectAttempts = 0 →
      (TerminalWS.handleClose c).2 = none ∧
      (SessionWS.handleClose c).2 = none) := by
  refine ⟨?_, ?_, ⟨rfl, rfl⟩, ?_, ⟨rfl, rfl⟩, ⟨rfl, rfl⟩, ?_⟩
  · intro h
    constructor <;> simp [TerminalWS.handleClose, SessionWS.handleClose, h,
      reconnectDelay]
  · intro h
    constructor <;> simp [TerminalWS.handleClose, SessionWS.handleClose, h]
  · intro h5 hm5
    constructor <;>
      · simp only [TerminalWS.handleClose, SessionWS.handleClose]
        split <;> simp <;> omega
  · intro h0
    constructor <;> simp [TerminalWS.handleClose, SessionWS.handleClose, h0]

/-- Witness for `reconnect_linear_backoff_capped` on a fresh client (0
attempts, cap 5): the first scheduled reconnect delay is 1000 ms, and on a
disconnected client (cap zeroed) no reconnect is scheduled. -/
theorem reconnect_linear_backoff_capped_witness :
    (TerminalWS.handleClose TerminalWS.newClient).2 = some 1000 ∧
    (SessionWS.handleClose
        (SessionWS.disconnect SessionWS.newClient)).2 = none := by
  constructor
  · have h := (reconnect_linear_backoff_capped TerminalWS.newClient).1
      (by decide)
    rw [h.1]
    rfl
  · have h := (reconnect_linear_backoff_capped
      (SessionWS.disconnect SessionWS.newClient)).2.2.2.2.2.2 (by decide)
    exact h.2

/-! ## Send behaviour of the client wrappers (C6, C8, C9) -/

/-- C6: every call to `spawnAgent(prompt, agent, worktreePath)` while the
socket is open sends exactly one `{type:"spawn", prompt, agent,
worktree_path}` frame carrying the argument values. -/
theorem spawnAgent_sends_single_spawn_frame (c : WsClient)
    (prompt agent worktreePath : String)
    (h : c.ws = some ReadyState.OPEN) :
    SessionWS.spawnAgent c prompt agent worktreePath
      = [OutFrame.spawn prompt agent worktreePath] := by
  simp [SessionWS.spawnAgent, h]

/-- Witness for `spawnAgent_sends_single_spawn_frame` on an open client. -/
theorem spawnAgent_sends_single_spawn_frame_witness :
    SessionWS.spawnAgent
        { ws := some ReadyState.OPEN, reconnectAttempts := 0,
          maxReconnectAttempts := 5, socketsCreated := 1 }
        "fix the button" "claude" "/repo"
      = [OutFrame.spawn "fix the button" "claude" "/repo"] :=
  spawnAgent_sends_single_spawn_frame _ _ _ _ rfl

/-- C8: for both client classes, calling `connect()` while the socket is
already `OPEN` is a no-op — the state (including the count of sockets ever
created) is unchanged. -/
theorem connect_noop_when_open (c : WsClient)
    (h : c.ws = some ReadyState.OPEN) :
    TerminalWS.connect c = c ∧ SessionWS.connect c = c := by
  constructor <;> simp [TerminalWS.connect, SessionWS.connect, h]

/-- Witness for `connect_noop_when_open` on an open client. -/
theorem connect_noop_when_open_witness :
    TerminalWS.connect
        { ws := some ReadyState.OPEN, reconnectAttempts := 2,
          maxReconnectAttempts := 5, socketsCreated := 3 }
      = { ws := some ReadyState.OPEN, reconnectAttempts := 2,
          maxReconnectAttempts := 5, socketsCreated := 3 } :=
  (connect_noop_when_open _ rfl).1

/-- C9: `sendInput`, `sendKill`, and `spawnAgent` on a client whose socket
is not `OPEN` send nothing (the total functions return the empty frame
list, so nothing is buffered and no error is raised). -/
theorem sends_discarded_when_not_open (c : WsClient)
    (data prompt agent worktreePath : String)
    (h : c.ws ≠ some ReadyState.OPEN) :
    TerminalWS.sendInput c data = [] ∧
    TerminalWS.sendKill c = [] ∧
    SessionWS.sendInput c data = [] ∧
    SessionWS.sendKill c = [] ∧
    SessionWS.spawnAgent c prompt agent worktreePath = [] := by
  refine ⟨?_, ?_, ?_, ?_, ?_⟩ <;>
    simp [TerminalWS.sendInput, TerminalWS.sendKill, SessionWS.sendInput,
      SessionWS.sendKill, SessionWS.spawnAgent, h]

/-- Witness for `sends_discarded_when_not_open` on a client with a null
socket. -/
theorem sends_discarded_when_not_open_witness :
    TerminalWS.sendInput TerminalWS.newClient "ls" = [] ∧
    SessionWS.spawnAgent SessionWS.newClient "p" "claude" "/repo" = [] := by
  have h := sends_discarded_when_not_open TerminalWS.newClient
    "ls" "p" "claude" "/repo" (by decide)
  exact ⟨h.1, h.2.2.2.2⟩

/-! ## API client response handling (C7)

From `src/frontend/src/lib/api/client.ts`. -/

/-- The fields of a fetch `Response` that `handleResponse` reads. -/
structure HttpResponse where
  ok : Bool
  status : Nat
  statusText : String
  bodyText : String

/-- `ApiError` from `client.ts`: a numeric status and a message. -/
structure ApiError where
  status : Nat
  message : String
  deriving DecidableEq

/-- `handleResponse` from `client.ts` (lines 15-21): on a non-ok response,
throw `ApiError(status, text || statusText)` where `text` is the body text
(JavaScript `||` falls back on the empty string); on an ok response, return
the parsed JSON body (`parsedBody` stands for the result of
`response.json()`). -/
def handleResponse {α : Type} (r : HttpResponse) (parsedBody : α) :
    Except ApiError α :=
  if !r.ok then
    Except.error
      ⟨r.status, if r.bodyText == "" then r.statusText else r.bodyText⟩
  else Except.ok parsedBody

/-- C7: a non-ok response raises an `ApiError` carrying the numeric status
and the body text, falling back to the status text when the body is empty;
an ok response returns the parsed JSON body. -/
theorem handleResponse_error_carries_text {α : Type}
    (r : HttpResponse) (body : α) :
    (r.ok = false → r.bodyText ≠ "" →
      handleResponse r body = Except.error ⟨r.status, r.bodyText⟩) ∧
    (r.ok = false → r.bodyText = "" →
      handleResponse r body = Except.error ⟨r.status, r.statusText⟩) ∧
    (r.ok = true → handleResponse r body = Except.ok body) := by
  refine ⟨?_, ?_, ?_⟩ <;> intro hok <;>
    first
      | (intro hbody; simp [handleResponse, hok, hbody])
      | simp [handleResponse, hok]

/-- Witness for `handleResponse_error_carries_text`: a 404 with a body, a
500 with an empty body, and a 200 carrying a parsed value. -/
theorem handleResponse_error_carries_text_witness :
    handleResponse (α := Nat)
        ⟨false, 404, "Not Found", "task 7 does not exist"⟩ 0
      = Except.error ⟨404, "task 7 does not exist"⟩ ∧
    handleResponse (α := Nat) ⟨false, 500, "Internal Server Error", ""⟩ 0
      = Except.error ⟨500, "Internal Server Error"⟩ ∧
    handleResponse (α := Nat) ⟨true, 200, "OK", "{}"⟩ 42
      = Except.ok 42 := by
  refine ⟨?_, ?_, ?_⟩
  · exact (handleResponse_error_carries_text
      ⟨false, 404, "Not Found", "task 7 does not exist"⟩ 0).1 rfl (by decide)
  · exact (handleResponse_error_carries_text
      ⟨false, 500, "Internal Server Error", ""⟩ 0).2.1 rfl rfl
  · exact (handleResponse_error_carries_text
      ⟨true, 200, "OK", "{}"⟩ 42).2.2 rfl

/-! ## Settings store (C10)

From `src/unnamed/part_006`. -/

/-- The `defaults` map of the settings store: the literal key/value object
from `src/unnamed/part_006`, as a partial map on keys. -/
def defaults (k : String) : Option String :=
  if k = "parallel_limit" then some "1"
  else if k = "trigger_status" then some "Ready for Dev"
  else if k = "target_status" then some "In Development"
  else if k = "target_repo_path" then some ""
  else if k = "dev_branch" then some "dev"
  else if k = "clickup_workspace_id" then some ""
  else if k = "clickup_space_id" then some ""
  else if k = "clickup_folder_id" then some ""
  else if k = "clickup_list_id" then some ""
  else none

/-- The module-level state of the settings store: the loaded `settings`
record (a partial string map), and the `loading`/`error`/`dirty` flags. -/
structure SettingsState where
  settings : String → Option String
  loading : Bool
  error : Option String
  dirty : Bool

/-- `useSettings().get`: `settings[key] ?? defaults[key] ?? ''` (nullish
coalescing chains to the built-in default, then the empty string). -/
def SettingsState.get (s : SettingsState) (key : String) : String :=
  ((s.settings key).getD ((defaults key).getD ""))

/-- `useSettings().set`: `settings[key] = value; dirty = true`. -/
def SettingsState.set (s : SettingsState) (key value : String) :
    SettingsState :=
  { s with
    settings := fun k => if k = key then some value else s.settings k,
    dirty := true }

/-- C10: `get(k)` returns the loaded value when present, otherwise the
built-in default for `k` (with the documented literals for
`parallel_limit`, `trigger_status`, `target_status`, `dev_branch`),
otherwise the empty string — it is a total `String` function, never
undefined; and `set(k, v)` changes only the entry for `k` plus the dirty
flag. -/
theorem settings_get_set_behaviour (s : SettingsState) (k v : String) :
    (∀ w, s.settings k = some w → s.get k = w) ∧
    (s.settings k = none → s.get k = (defaults k).getD "") ∧
    (defaults "parallel_limit" = some "1" ∧
      defaults "trigger_status" = some "Ready for Dev" ∧
      defaults "target_status" = some "In Development" ∧
      defaults "dev_branch" = some "dev") ∧
    (s.settings k = none → defaults k = none → s.get k = "") ∧
    ((s.set k v).settings k = some v ∧
      (∀ k2, k2 ≠ k → (s.set k v).settings k2 = s.settings k2) ∧
      (s.set k v).dirty = true ∧
      (s.set k v).loading = s.loading ∧
      (s.set k v).error = s.error) := by
  refine ⟨?_, ?_, ⟨rfl, rfl, rfl, rfl⟩, ?_, ?_, ?_, rfl, rfl, rfl⟩
  · intro w hw
    simp [SettingsState.get, hw]
  · intro hnone
    simp [SettingsState.get, hnone]
  · intro hnone hdef
    simp [SettingsState.get, hnone, hdef]
  · simp [SettingsState.set]
  · intro k2 hk2
    simp [SettingsState.set, hk2]

/-- Witness for `settings_get_set_behaviour` on an empty settings map:
defaults are served, missing keys give the empty string, and `set`
updates the entry and dirty flag. -/
theorem settings_get_set_behaviour_witness :
    SettingsState.get ⟨fun _ => none, false, none, false⟩ "parallel_limit"
        = "1" ∧
    SettingsState.get ⟨fun _ => none, false, none, false⟩ "no_such_key"
        = "" ∧
    (SettingsState.set ⟨fun _ => none, false, none, false⟩
        "parallel_limit" "3").settings "parallel_limit" = some "3" ∧
    (SettingsState.set ⟨fun _ => none, false, none, false⟩
        "parallel_limit" "3").dirty = true := by
  have h := settings_get_set_behaviour
    ⟨fun _ => none, false, none, false⟩ "parallel_limit" "3"
  have h2 := settings_get_set_behaviour
    ⟨fun _ => none, false, none, false⟩ "no_such_key" "3"
  refine ⟨?_, ?_, h.2.2.2.2.1, h.2.2.2.2.2.2.1⟩
  · rw [h.2.1 rfl]; decide
  · rw [h2.2.2.2.1 rfl (by decide)]

/-! ## UI-refinements chat queue (C5)

From the UI-refinements page in the `Terminal.svelte` source file (the
WebSocket-backed version): `handleSendMessage`, `processMessage`,
`processNextInQueue`, `handleWsMessage`.  Wall-clock timestamps and the
optional element context are presentation data not touched by the claims
and are omitted from the records; `crypto.randomUUID()` is modelled by a
fresh-id counter `nextId`. -/

inductive ChatRole where
  | user
  | assistant
  deriving DecidableEq

inductive MsgStatus where
  | pending
  | processing
  | completed
  | error
  deriving DecidableEq

/-- An entry of the page's `messages` array. -/
structure ChatMessage where
  id : Nat
  role : ChatRole
  content : String
  status : MsgStatus
  deriving DecidableEq

/-- An entry of the page's `messageQueue` array. -/
structure QueuedMessage where
  id : Nat
  content : String
  queuePosition : Nat
  deriving DecidableEq

/-- The chat-related component state of the UI-refinements page.
`connected` (below) abstracts the truthiness of
`wsClient && targetRepoPath` tested by `processMessage`. -/
structure ChatState where
  messages : List ChatMessage
  messageQueue : List QueuedMessage
  isProcessing : Bool
  currentAssistantMessageId : Option Nat
  nextId : Nat
  deriving DecidableEq

/-- Messages of the session WebSocket (`SessionWsMessage` in
`src/unnamed/part_001`). -/
inductive SessionWsMessage where
  | output (line : String) (is_stderr : Bool)
  | connected (session_id : String) (is_running : Bool)
  | error (message : String)
  | spawned (pid : Nat)
  deriving DecidableEq

mutual

/-- `processMessage` from the UI-refinements page: when connected, create
the assistant placeholder, record it as the current assistant message and
spawn the agent; otherwise append an error message, clear `isProcessing`
and fall through to `processNextInQueue`. -/
def processMessage (connected : Bool) (message : ChatMessage)
    (s : ChatState) : ChatState :=
  if connected then
    let assistantId := s.nextId
    { s with
      nextId := assistantId + 1,
      currentAssistantMessageId := some assistantId,
      messages := s.messages ++
        [⟨assistantId, ChatRole.assistant, "", MsgStatus.processing⟩] }
  else
    let s1 : ChatState :=
      { s with
        messages := s.messages ++
          [⟨s.nextId, ChatRole.assistant,
            "Error: Not connected to backend or no target repository configured.",
            MsgStatus.error⟩],
        nextId := s.nextId + 1,
        isProcessing := false }
    processNextInQueue connected s1
termination_by (s.messageQueue.length, 1)

/-- `processNextInQueue` from the UI-refinements page: when the queue is
non-empty, dequeue its head, mark it processing, append it to the messages
and process it. -/
def processNextInQueue (connected : Bool) (s : ChatState) : ChatState :=
  match hq : s.messageQueue with
  | [] => s
  | next :: rest =>
    let s1 : ChatState :=
      { s with
        messageQueue := rest,
        isProcessing := true,
        messages := s.messages ++
          [⟨next.id, ChatRole.user, next.content, MsgStatus.processing⟩] }
    processMessage connected
      ⟨next.id, ChatRole.user, next.content, MsgStatus.processing⟩ s1
termination_by (s.messageQueue.length, 0)
decreasing_by
  simp_wf
  apply Prod.Lex.left
  rw [hq]
  simp

end

/-- `handleSendMessage` from the UI-refinements page: allocate the message
id; when a message is already processing, append the new one to the end of
the queue; otherwise mark it processing, append it to the messages and
process it immediately. -/
def handleSendMessage (connected : Bool) (content : String)
    (s : ChatState) : ChatState :=
  let messageId := s.nextId
  let s0 : ChatState := { s with nextId := s.nextId + 1 }
  if s0.isProcessing then
    { s0 with
      messageQueue := s0.messageQueue ++
        [⟨messageId, content, s0.messageQueue.length + 1⟩] }
  else
    let s1 : ChatState :=
      { s0 with
        isProcessing := true,
        messages := s0.messages ++
          [⟨messageId, ChatRole.user, content, MsgStatus.processing⟩] }
    processMessage connected
      ⟨messageId, ChatRole.user, content, MsgStatus.pending⟩ s1

/-- `handleWsMessage` from the UI-refinements page: `output` lines are
appended to the current assistant message; a line containing
`"[Process exited with code"` completes the current message, clears the
processing flags and processes the next queued message; an `error` message
does the same after recording the error text. -/
def handleWsMessage (connected : Bool) (msg : SessionWsMessage)
    (s : ChatState) : ChatState :=
  match msg with
  | .output line _ =>
    let s1 : ChatState :=
      match s.currentAssistantMessageId with
      | some aid =>
        { s with messages := s.messages.map (fun m =>
            if m.id = aid then
              { m with content := m.content ++ line ++ "\n" }
            else m) }
      | none => s
    if jsIncludes line "[Process exited with code" then
      let s2 : ChatState :=
        match s1.currentAssistantMessageId with
        | some aid =>
          { s1 with messages := s1.messages.map (fun m =>
              if m.id = aid then { m with status := MsgStatus.completed }
              else m) }
        | none => s1
      processNextInQueue connected
        { s2 with currentAssistantMessageId := none, isProcessing := false }
    else s1
  | .error emsg =>
    let s1 : ChatState :=
      match s.currentAssistantMessageId with
      | some aid =>
        { s with messages := s.messages.map (fun m =>
            if m.id = aid then
              { m with content := m.content ++ "\nError: " ++ emsg,
                       status := MsgStatus.error }
            else m) }
      | none => s
    processNextInQueue connected
      { s1 with currentAssistantMessageId := none, isProcessing := false }
  | _ => s

/-- At most one message is in flight: whenever a current assistant message
is recorded, the `isProcessing` flag is set. -/
def ProcessingInv (s : ChatState) : Prop :=
  s.currentAssistantMessageId.isSome = true → s.isProcessing = true

theorem processNextInQueue_nil (connected : Bool) (s : ChatState)
    (h : s.messageQueue = []) : processNextInQueue connected s = s := by
  rw [processNextInQueue, h]

theorem processNextInQueue_cons (s : ChatState) (next : QueuedMessage)
    (rest : List QueuedMessage) (h : s.messageQueue = next :: rest) :
    processNextInQueue true s =
      { s with
        messageQueue := rest,
        isProcessing := true,
        currentAssistantMessageId := some s.nextId,
        nextId := s.nextId + 1,
        messages := s.messages ++
          [⟨next.id, ChatRole.user, next.content, MsgStatus.processing⟩,
           ⟨s.nextId, ChatRole.assistant, "", MsgStatus.processing⟩] } := by
  rw [processNextInQueue, h]
  simp [processMessage]

theorem handleSendMessage_processing (connected : Bool) (content : String)
    (s : ChatState) (h : s.isProcessing = true) :
    handleSendMessage connected content s =
      { s with
        nextId := s.nextId + 1,
        messageQueue := s.messageQueue ++
          [⟨s.nextId, content, s.messageQueue.length + 1⟩] } := by
  simp [handleSendMessage, h]

theorem sendLoop_queue_contents (ms : List String) (s : ChatState)
    (h : s.isProcessing = true) :
    ((ms.foldl (fun st c => handleSendMessage true c st) s).messageQueue.map
        QueuedMessage.content)
      = s.messageQueue.map QueuedMessage.content ++ ms := by
  induction ms generalizing s with
  | nil => simp
  | cons m ms ih =>
    rw [List.foldl_cons, handleSendMessage_processing true m s h,
      ih { s with nextId := s.nextId + 1,
                  messageQueue := s.messageQueue ++
                    [⟨s.nextId, m, s.messageQueue.length + 1⟩] } h]
    simp

theorem ProcessingInv_processNextInQueue (s : ChatState)
    (h : s.currentAssistantMessageId = none) :
    ProcessingInv (processNextInQueue true s) := by
  cases hq : s.messageQueue with
  | nil =>
    rw [processNextInQueue_nil true s hq]
    intro hs
    rw [h] at hs
    simp at hs
  | cons next rest =>
    rw [processNextInQueue_cons s next rest hq]
    intro _
    rfl

theorem ProcessingInv_handleSendMessage (content : String) (s : ChatState)
    (h : ProcessingInv s) :
    ProcessingInv (handleSendMessage true content s) := by
  by_cases hp : s.isProcessing = true
  · rw [handleSendMessage_processing true content s hp]
    intro _
    exact hp
  · have hp' : s.isProcessing = false := by simpa using hp
    simp only [handleSendMessage, hp', Bool.false_eq_true, if_false,
      processMessage, if_true]
    intro _
    rfl

theorem ProcessingInv_handleWsMessage (msg : SessionWsMessage)
    (s : ChatState) (h : ProcessingInv s) :
    ProcessingInv (handleWsMessage true msg s) := by
  cases msg with
  | connected sid r => exact h
  | spawned pid => exact h
  | output line ie =>
    cases hcur : s.currentAssistantMessageId with
    | none =>
      by_cases hinc : jsIncludes line "[Process exited with code" = true
      · simp only [handleWsMessage, hcur, hinc, if_true]
        exact ProcessingInv_processNextInQueue _ rfl
      · have hb : jsIncludes line "[Process exited with code" = false := by
          simpa using hinc
        simp only [handleWsMessage, hcur, hb, Bool.false_eq_true, if_false]
        exact h
    | some aid =>
      by_cases hinc : jsIncludes line "[Process exited with code" = true
      · simp only [handleWsMessage, hcur, hinc, if_true]
        exact ProcessingInv_processNextInQueue _ rfl
      · have hb : jsIncludes line "[Process exited with code" = false := by
          simpa using hinc
        simp only [handleWsMessage, hcur, hb, Bool.false_eq_true, if_false]
        intro _
        exact h (by rw [hcur]; rfl)
  | error emsg =>
    cases hcur : s.currentAssistantMessageId with
    | none =>
      simp only [handleWsMessage, hcur]
      exact ProcessingInv_processNextInQueue _ rfl
    | some aid =>
      simp only [handleWsMessage, hcur]
      exact ProcessingInv_processNextInQueue _ rfl

/-- C5: at most one chat message is in flight at a time (`ProcessingInv`
is preserved by every send and every WebSocket event); a message sent
while another is processing is appended to the end of the queue; when the
current message completes (exit line observed or error received) the
earliest queued message is dequeued and becomes the one processed next;
and messages sent while processing accumulate in the queue in arrival
(FIFO) order. Stated for a connected session (`wsClient` and
`targetRepoPath` set). -/
theorem chat_single_processing_fifo
    (s : ChatState) (content line emsg : String) (ie : Bool) (aid : Nat)
    (next : QueuedMessage) (rest : List QueuedMessage) (ms : List String)
    (msg : SessionWsMessage) :
    (s.isProcessing = true →
      handleSendMessage true content s =
        { s with
          nextId := s.nextId + 1,
          messageQueue := s.messageQueue ++
            [⟨s.nextId, content, s.messageQueue.length + 1⟩] }) ∧
    (s.messageQueue = next :: rest →
      processNextInQueue true s =
        { s with
          messageQueue := rest,
          isProcessing := true,
          currentAssistantMessageId := some s.nextId,
          nextId := s.nextId + 1,
          messages := s.messages ++
            [⟨next.id, ChatRole.user, next.content, MsgStatus.processing⟩,
             ⟨s.nextId, ChatRole.assistant, "", MsgStatus.processing⟩] }) ∧
    (s.messageQueue = [] → processNextInQueue true s = s) ∧
    (s.currentAssistantMessageId = some aid →
      jsIncludes line "[Process exited with code" = true →
      handleWsMessage true (.output line ie) s =
        processNextInQueue true
          { s with
            messages := ((s.messages.map (fun m =>
                if m.id = aid then
                  { m with content := m.content ++ line ++ "\n" }
                else m)).map (fun m =>
                if m.id = aid then { m with status := MsgStatus.completed }
                else m)),
            currentAssistantMessageId := none,
            isProcessing := false }) ∧
    (s.currentAssistantMessageId = some aid →
      handleWsMessage true (.error emsg) s =
        processNextInQueue true
          { s with
            messages := s.messages.map (fun m =>
              if m.id = aid then
                { m with content := m.content ++ "\nError: " ++ emsg,
                         status := MsgStatus.error }
              else m),
            currentAssistantMessageId := none,
            isProcessing := false }) ∧
    (ProcessingInv s → ProcessingInv (handleSendMessage true content s)) ∧
    (ProcessingInv s → ProcessingInv (handleWsMessage true msg s)) ∧
    (s.isProcessing = true →
      ((ms.foldl (fun st c => handleSendMessage true c st) s).messageQueue.map
          QueuedMessage.content)
        = s.messageQueue.map QueuedMessage.content ++ ms) := by
  refine ⟨handleSendMessage_processing true content s,
    processNextInQueue_cons s next rest,
    processNextInQueue_nil true s, ?_, ?_,
    ProcessingInv_handleSendMessage content s,
    ProcessingInv_handleWsMessage msg s,
    sendLoop_queue_contents ms s⟩
  · intro hcur hinc
    simp only [handleWsMessage, hcur, hinc, if_true]
  · intro hcur
    simp only [handleWsMessage, hcur]

/-- Witness for `chat_single_processing_fifo` on concrete states: a send
while processing lands at the end of the queue, and dequeuing processes the
earliest queued message. -/
theorem chat_single_processing_fifo_witness :
    (handleSendMessage true "hi"
        ⟨[], [⟨0, "zero", 1⟩], true, some 9, 1⟩).messageQueue
      = [⟨0, "zero", 1⟩, ⟨1, "hi", 2⟩] ∧
    (processNextInQueue true
        ⟨[], [⟨1, "second", 1⟩, ⟨2, "third", 2⟩], false, none, 3⟩).messageQueue
      = [⟨2, "third", 2⟩] ∧
    (processNextInQueue true
        ⟨[], [⟨1, "second", 1⟩, ⟨2, "third", 2⟩],
          false, none, 3⟩).currentAssistantMessageId = some 3 := by
  have h1 := (chat_single_processing_fifo
    ⟨[], [⟨0, "zero", 1⟩], true, some 9, 1⟩ "hi" "" "" false 0
    ⟨0, "", 0⟩ [] [] (.spawned 0)).1 rfl
  have h2 := (chat_single_processing_fifo
    ⟨[], [⟨1, "second", 1⟩, ⟨2, "third", 2⟩], false, none, 3⟩
    "" "" "" false 0 ⟨1, "second", 1⟩ [⟨2, "third", 2⟩] []
    (.spawned 0)).2.1 rfl
  rw [h1, h2]
  exact ⟨rfl, rfl, rfl⟩

end Orchestrator
